import Mathlib

/-
Verification of `paper/figures/generate_charts.py` against its design
specification.

The script builds two Altair figures from embedded literal data and saves
each as a PNG (scale factor 2.0) and a PDF.  We embed the data model
shallowly: a record is an ordered association list of field names to
values (mirroring the Python dict literals and pandas DataFrame columns),
an encoding channel mirrors the `alt.X` / `alt.Y` / `alt.Color` / `alt.Text`
bindings, a layer is a mark kind plus its bound dataset and channels, and a
figure is the ordered layer list with its title metadata.  Library-side
behaviour that the script relies on but does not implement (schema and
ordering validation, export error reporting, overwrite semantics) is
modelled from the spec, marked as such in doc comments.
-/

deriving instance DecidableEq for Except

namespace GenerateCharts

/-- A cell value of a dataset column: integer, rational (for the float
literals of the script), or string. -/
inductive Value where
  | i : ℤ → Value
  | q : ℚ → Value
  | s : String → Value
deriving DecidableEq

/-- A record is an ordered association list of field names to values,
mirroring one dict literal of the script. -/
abbrev Record := List (String × Value)

/-- The field names of a record, in column order. -/
def Record.fields (r : Record) : List String := r.map Prod.fst

/-- Look up a field of a record. -/
def Record.get (r : Record) (f : String) : Option Value :=
  (r.find? (fun p => p.1 == f)).map Prod.snd

/-- Numeric view of a value (integers are read as rationals, as pandas
would place both in a numeric column). -/
def Value.toQ : Value → Option ℚ
  | .i n => some (n : ℚ)
  | .q x => some x
  | .s _ => none

/-- Numeric field access with default 0 (all uses in this development are
on fields that exist). -/
def Record.getQ (r : Record) (f : String) : ℚ :=
  ((r.get f).bind Value.toQ).getD 0

/-- Integer field access with default 0. -/
def Record.getI (r : Record) (f : String) : ℤ :=
  match r.get f with
  | some (.i n) => n
  | _ => 0

/-- String field access. -/
def Record.getS (r : Record) (f : String) : Option String :=
  match r.get f with
  | some (.s v) => some v
  | _ => none

/-- `quality_noise_data`: the 15-row literal DataFrame of the script
(lines 11-27). -/
def quality_noise_data : List Record := [
  [("quality", .i 50), ("noise", .s "Low (SD=15)"), ("probability", .q (mkRat 2 10)), ("order", .i 1)],
  [("quality", .i 60), ("noise", .s "Low (SD=15)"), ("probability", .q (mkRat 28 10)), ("order", .i 1)],
  [("quality", .i 70), ("noise", .s "Low (SD=15)"), ("probability", .q (mkRat 268 10)), ("order", .i 1)],
  [("quality", .i 80), ("noise", .s "Low (SD=15)"), ("probability", .q (mkRat 667 10)), ("order", .i 1)],
  [("quality", .i 90), ("noise", .s "Low (SD=15)"), ("probability", .q (mkRat 939 10)), ("order", .i 1)],
  [("quality", .i 50), ("noise", .s "Medium (SD=30)"), ("probability", .q (mkRat 34 10)), ("order", .i 2)],
  [("quality", .i 60), ("noise", .s "Medium (SD=30)"), ("probability", .q (mkRat 110 10)), ("order", .i 2)],
  [("quality", .i 70), ("noise", .s "Medium (SD=30)"), ("probability", .q (mkRat 243 10)), ("order", .i 2)],
  [("quality", .i 80), ("noise", .s "Medium (SD=30)"), ("probability", .q (mkRat 461 10)), ("order", .i 2)],
  [("quality", .i 90), ("noise", .s "Medium (SD=30)"), ("probability", .q (mkRat 677 10)), ("order", .i 2)],
  [("quality", .i 50), ("noise", .s "High (SD=45)"), ("probability", .q (mkRat 70 10)), ("order", .i 3)],
  [("quality", .i 60), ("noise", .s "High (SD=45)"), ("probability", .q (mkRat 136 10)), ("order", .i 3)],
  [("quality", .i 70), ("noise", .s "High (SD=45)"), ("probability", .q (mkRat 238 10)), ("order", .i 3)],
  [("quality", .i 80), ("noise", .s "High (SD=45)"), ("probability", .q (mkRat 376 10)), ("order", .i 3)],
  [("quality", .i 90), ("noise", .s "High (SD=45)"), ("probability", .q (mkRat 516 10)), ("order", .i 3)]]

/-- `strategy_data`: the 4-row literal DataFrame of the script
(lines 77-82). -/
def strategy_data : List Record := [
  [("strategy", .s "Two Very Good"), ("expected", .q (mkRat 82 100)), ("papers", .i 2), ("quality", .i 78)],
  [("strategy", .s "Three Decent"), ("expected", .q (mkRat 60 100)), ("papers", .i 3), ("quality", .i 68)],
  [("strategy", .s "Two Good"), ("expected", .q (mkRat 57 100)), ("papers", .i 2), ("quality", .i 72)],
  [("strategy", .s "One Excellent"), ("expected", .q (mkRat 56 100)), ("papers", .i 1), ("quality", .i 85)]]

/-- Semantic type of an encoding channel (`:Q` quantitative, `:N` nominal
in the Altair shorthand). -/
inductive ChType where
  | quantitative
  | nominal
deriving DecidableEq

/-- One channel binding of an encoding spec: channel name, bound field,
semantic type, optional quantitative scale domain, optional explicit
category ordering (the `sort=[...]` list of `alt.Color`), optional
sort-by-field (the `alt.EncodingSortField`; the Bool is `true` for
descending order). -/
structure Channel where
  channel : String
  field : String
  ctype : ChType
  domain : Option (ℚ × ℚ)
  sortList : Option (List String)
  sortByField : Option (String × Bool)
deriving DecidableEq

/-- The geometric mark kind of a layer. -/
inductive Mark where
  | line
  | rule
  | text
  | bar
deriving DecidableEq

/-- One renderable layer: mark kind, bound dataset, encoding channels. -/
structure Layer where
  mark : Mark
  data : List Record
  encoding : List Channel
deriving DecidableEq

/-- `threshold_line` (lines 30-34): a dashed vertical rule at x=70 over a
one-row one-column DataFrame. -/
def threshold_line : Layer :=
  ⟨Mark.rule, [[("x", .i 70)]], [⟨"x", "x", ChType.quantitative, none, none, none⟩]⟩

/-- `threshold_label` (lines 36-41): the text mark "Threshold" at
(x=70, y=92). -/
def threshold_label : Layer :=
  ⟨Mark.text,
   [[("x", .i 70), ("y", .i 92), ("text", .s "Threshold")]],
   [⟨"x", "x", ChType.quantitative, none, none, none⟩,
    ⟨"y", "y", ChType.quantitative, none, none, none⟩,
    ⟨"text", "text", ChType.nominal, none, none, none⟩]⟩

/-- `quality_noise_chart` (lines 43-64): the line-with-points layer with
x domain [45,95], y domain [0,100] and the explicitly ordered color
channel on `noise`. -/
def quality_noise_chart : Layer :=
  ⟨Mark.line, quality_noise_data,
   [⟨"x", "quality", ChType.quantitative, some (45, 95), none, none⟩,
    ⟨"y", "probability", ChType.quantitative, some (0, 100), none, none⟩,
    ⟨"color", "noise", ChType.nominal, none,
     some ["Low (SD=15)", "Medium (SD=30)", "High (SD=45)"], none⟩]⟩

/-- `bars` (lines 84-96): the bar layer, x sorted descending by the
`expected` field, y domain [0,1]. -/
def bars : Layer :=
  ⟨Mark.bar, strategy_data,
   [⟨"x", "strategy", ChType.nominal, none, none, some ("expected", true)⟩,
    ⟨"y", "expected", ChType.quantitative, some (0, 1), none, none⟩]⟩

/-- `text_labels` (lines 98-106): the bold value labels above the bars. -/
def text_labels : Layer :=
  ⟨Mark.text, strategy_data,
   [⟨"x", "strategy", ChType.nominal, none, none, some ("expected", true)⟩,
    ⟨"y", "expected", ChType.quantitative, none, none, none⟩,
    ⟨"text", "expected", ChType.quantitative, none, none, none⟩]⟩

/-- The info-label formatting of line 110 of the script, the f-string
that renders the papers count, the word paper with a plural s exactly
when the count exceeds 1, and then Q= followed by the quality value, as
a pure function of the record's papers and quality fields. -/
def infoText (papers : ℤ) (quality : ℤ) : String :=
  toString papers ++ " paper" ++ (if 1 < papers then "s" else "") ++
    ", Q=" ++ toString quality

/-- `info_data` (lines 109-111): a copy of `strategy_data` extended with
the derived `info` column and the constant `y_pos = 0.08` column. -/
def info_data : List Record :=
  strategy_data.map (fun r =>
    r ++ [("info", .s (infoText (r.getI "papers") (r.getI "quality"))),
          ("y_pos", .q (mkRat 8 100))])

/-- `info_labels` (lines 113-120): the white in-bar text layer bound to
`info_data`. -/
def info_labels : Layer :=
  ⟨Mark.text, info_data,
   [⟨"x", "strategy", ChType.nominal, none, none, some ("expected", true)⟩,
    ⟨"y", "y_pos", ChType.quantitative, none, none, none⟩,
    ⟨"text", "info", ChType.nominal, none, none, none⟩]⟩

/-- Altair's `+` on charts: layer concatenation in the order written
(`a + b` renders `b` on top of `a`). -/
def layerOp (a b : List Layer) : List Layer := a ++ b

/-- The layer sequence of `fig1` (line 66):
`quality_noise_chart + threshold_line + threshold_label`. -/
def fig1_layers : List Layer :=
  layerOp (layerOp [quality_noise_chart] [threshold_line]) [threshold_label]

/-- The layer sequence of `fig2` (line 122):
`bars + text_labels + info_labels`. -/
def fig2_layers : List Layer :=
  layerOp (layerOp [bars] [text_labels]) [info_labels]

/-- A composite figure: ordered layers plus figure-level metadata. -/
structure Figure where
  layers : List Layer
  width : ℕ
  height : ℕ
  title : String
  subtitle : String
  font : String
deriving DecidableEq

/-- `fig1` (lines 57-74): title and size come from the `.properties` call
on the base chart, the font from `.configure`. -/
def fig1 : Figure :=
  ⟨fig1_layers, 450, 300,
   "How Noise Redistributes Acceptance",
   "Good papers lose acceptance probability, bad papers gain",
   "Helvetica"⟩

/-- `fig2` (lines 122-136). -/
def fig2 : Figure :=
  ⟨fig2_layers, 400, 300,
   "Perverse Incentives: Quantity Over Quality",
   "Lower quality strategy yields 46% more expected publications",
   "Helvetica"⟩

/-- Stable descending insertion of a record into a list already sorted
descending by `key` (a new record goes after earlier records of equal
key, preserving row order among ties). -/
def insertDescBy (key : Record → ℚ) (x : Record) : List Record → List Record
  | [] => [x]
  | y :: ys => if key y < key x then x :: y :: ys else y :: insertDescBy key x ys

/-- Stable descending sort by `key`: the category order produced by an
`alt.EncodingSortField` with descending order. -/
def sortDescBy (key : Record → ℚ) (l : List Record) : List Record :=
  l.foldr (insertDescBy key) []

/-- The left-to-right bar order of the strategy chart: the `strategy`
values sorted descending by the `expected` field. -/
def barOrder : List String :=
  (sortDescBy (fun r => r.getQ "expected") strategy_data).filterMap
    (fun r => r.getS "strategy")

/-- Same-field-set test between two records (as sets, ignoring column
order). -/
def sameFieldSet (r1 r2 : Record) : Bool :=
  r1.fields.all r2.fields.contains && r2.fields.all r1.fields.contains

/-- Modelled from the spec: the Dataset Builder validation that fails
with SchemaMismatchError when a record is missing a field present in its
siblings.  The script builds pandas DataFrames, so this validation
component is not in src; it is taken from section 4.1 of the spec. -/
def checkSchema (ds : List Record) : Except String Unit :=
  match ds with
  | [] => Except.ok ()
  | r :: rs =>
    if rs.all (sameFieldSet r) then Except.ok () else Except.error "SchemaMismatchError"

/-- The distinct values of a string field across the records of a
dataset, in order of first occurrence. -/
def distinctVals (ds : List Record) (f : String) : List String :=
  (ds.filterMap (fun r => r.getS f)).foldl
    (fun acc v => if acc.contains v then acc else acc ++ [v]) []

/-- Duplicate-freedom test for a list of strings. -/
def noDups : List String → Bool
  | [] => true
  | x :: xs => !xs.contains x && noDups xs

/-- Modelled from the spec: the Encoding Spec Builder validation that
fails with OrderingMismatchError unless the explicit ordering list holds
every distinct value of the bound field exactly once.  The script passes
the sort list straight to Altair, so this validation component is not in
src; it is taken from section 4.2 of the spec. -/
def checkOrdering (ds : List Record) (f : String) (ordering : List String) : Except String Unit :=
  if noDups ordering && ordering.all (distinctVals ds f).contains &&
      (distinctVals ds f).all ordering.contains
  then Except.ok ()
  else Except.error "OrderingMismatchError"

/-- One `fig.save` call of the script: the figure it saves (identified by
the name printed on the preceding line), the target path, and the PNG
scale factor when one is passed. -/
structure SaveCall where
  figName : String
  path : String
  scaleFactor : Option ℚ
deriving DecidableEq

/-- The export format Altair infers from the file extension of the
target path. -/
def SaveCall.format (c : SaveCall) : String :=
  if ".png".data.isSuffixOf c.path.data then "png"
  else if ".pdf".data.isSuffixOf c.path.data then "pdf"
  else "other"

/-- Modelled from the spec: PDF (and SVG) exports are vector output,
PNG is raster; the rendering backend is not in src. -/
def formatIsVector (format : String) : Bool :=
  format == "pdf" || format == "svg"

/-- Modelled from the spec: `fig.save` writes its target unconditionally,
overwriting any existing file; the rendering backend is not in src. -/
def saveOverwrites : Bool := true

/-- The four save calls of the script (lines 138-145), in program order. -/
def save_calls : List SaveCall := [
  ⟨"Quality x Noise", "paper/figures/quality-x-noise.png", some 2⟩,
  ⟨"Quality x Noise", "paper/figures/quality-x-noise.pdf", none⟩,
  ⟨"Strategy Comparison", "paper/figures/strategy-comparison.png", some 2⟩,
  ⟨"Strategy Comparison", "paper/figures/strategy-comparison.pdf", none⟩]

/-- Modelled from the spec: the ExportError surfaced when a write fails,
carrying the target path and the identifying name of the figure being
exported; the script itself only issues the bare save calls. -/
structure ExportError where
  path : String
  figName : String
deriving DecidableEq

/-- The export phase of the script: the save calls run in program order,
each attempted exactly once, with no exception handler around them, so
the first failure aborts the run.  `env` says whether writing a given
path succeeds.  Returns the list of calls actually attempted together
with the outcome. -/
def runExports (env : String → Bool) : List SaveCall → List SaveCall × Except ExportError Unit
  | [] => ([], Except.ok ())
  | c :: cs =>
    if env c.path then
      let rest := runExports env cs
      (c :: rest.1, rest.2)
    else ([c], Except.error ⟨c.path, c.figName⟩)

/-- Boolean test that a list of rationals is in descending
(non-increasing) order. -/
def descendingQ : List ℚ → Bool
  | [] => true
  | [_] => true
  | a :: b :: rest => (decide (b ≤ a)) && descendingQ (b :: rest)

/-- The plural rule of the info label: the word papers appears exactly
when the papers count exceeds 1, otherwise the singular paper. -/
theorem infoText_split (p q : ℤ) :
    infoText p q =
      toString p ++ (if 1 < p then " papers, Q=" else " paper, Q=") ++ toString q := by
  unfold infoText
  by_cases h : 1 < p
  · rw [if_pos h, if_pos h, String.append_assoc (toString p) " paper" "s",
      show (" paper" ++ "s" : String) = " papers" from rfl,
      String.append_assoc (toString p) " papers" ", Q=",
      show (" papers" ++ ", Q=" : String) = " papers, Q=" from rfl]
  · rw [if_neg h, if_neg h, String.append_empty,
      String.append_assoc (toString p) " paper" ", Q=",
      show (" paper" ++ ", Q=" : String) = " paper, Q=" from rfl]

/-- The ordering validation succeeds exactly when the explicit ordering
list is duplicate-free and holds the same set of values as the distinct
values of the bound field. -/
theorem checkOrdering_ok_iff (ds : List Record) (f : String) (O : List String) :
    checkOrdering ds f O = Except.ok () ↔
      (noDups O = true ∧ ∀ v, v ∈ O ↔ v ∈ distinctVals ds f) := by
  unfold checkOrdering
  by_cases h : (noDups O && O.all (distinctVals ds f).contains &&
      (distinctVals ds f).all O.contains) = true
  · rw [if_pos h]
    simp only [Bool.and_eq_true, List.all_eq_true] at h
    obtain ⟨⟨h1, h2⟩, h3⟩ := h
    constructor
    · intro _
      refine ⟨h1, fun v => ⟨fun hv => ?_, fun hv => ?_⟩⟩
      · exact List.elem_iff.mp (h2 v hv)
      · exact List.elem_iff.mp (h3 v hv)
    · intro _
      rfl
  · rw [if_neg h]
    constructor
    · intro hcontra
      exact Except.noConfusion hcontra
    · rintro ⟨h1, h2⟩
      exfalso
      apply h
      simp only [Bool.and_eq_true, List.all_eq_true]
      refine ⟨⟨h1, fun v hv => ?_⟩, fun v hv => ?_⟩
      · exact List.elem_iff.mpr ((h2 v).mp hv)
      · exact List.elem_iff.mpr ((h2 v).mpr hv)

/-- Sequencing of the export phase: once the writes before `c` succeed
and the write of `c` fails, the run attempts exactly the calls up to and
including `c` and stops with the error for `c`; the calls after `c` are
never attempted. -/
theorem runExports_append (env : String → Bool) (pre : List SaveCall) (c : SaveCall)
    (post : List SaveCall) (hpre : ∀ d ∈ pre, env d.path = true)
    (hc : env c.path = false) :
    runExports env (pre ++ c :: post) = (pre ++ [c], Except.error ⟨c.path, c.figName⟩) := by
  induction pre with
  | nil => simp [runExports, hc]
  | cons d ds ih =>
    have hd : env d.path = true := hpre d (List.mem_cons_self d ds)
    have ih2 := ih (fun e he => hpre e (List.mem_cons_of_mem d he))
    simp [runExports, hd, ih2]

/-- Claim C1, counterexample: the script saves no file at the bare
relative path quality-x-noise.png claimed by the spec sentence; its
first output path is paper/figures/quality-x-noise.png, and the full
path list differs from the claimed one. -/
theorem c1_paths_counterexample :
    "paper/figures/quality-x-noise.png" ∈ save_calls.map SaveCall.path ∧
    "quality-x-noise.png" ∉ save_calls.map SaveCall.path ∧
    save_calls.map SaveCall.path ≠
      ["quality-x-noise.png", "quality-x-noise.pdf",
       "strategy-comparison.png", "strategy-comparison.pdf"] := by decide

/-- Claim C1 (amended): the script issues exactly four save calls, at
the fixed relative paths paper/figures/quality-x-noise.png,
paper/figures/quality-x-noise.pdf, paper/figures/strategy-comparison.png
and paper/figures/strategy-comparison.pdf, all distinct, unconditionally
overwriting any existing file, each PNG at raster scale factor 2.0 and
each PDF as vector output with no scale factor. -/
theorem c1_outputs :
    save_calls.length = 4 ∧
    save_calls.map SaveCall.path =
      ["paper/figures/quality-x-noise.png", "paper/figures/quality-x-noise.pdf",
       "paper/figures/strategy-comparison.png", "paper/figures/strategy-comparison.pdf"] ∧
    (save_calls.map SaveCall.path).Nodup ∧
    (∀ c ∈ save_calls, (c.format = "png" ↔ c.scaleFactor = some 2)) ∧
    (∀ c ∈ save_calls, c.format = "png" ∨ c.format = "pdf") ∧
    (∀ c ∈ save_calls, c.format = "pdf" → formatIsVector c.format = true ∧ c.scaleFactor = none) ∧
    saveOverwrites = true := by decide

/-- Witness for c1_outputs at the first save call of the script. -/
theorem c1_outputs_witness :
    (⟨"Quality x Noise", "paper/figures/quality-x-noise.png", some 2⟩ : SaveCall).format = "png" ∨
    (⟨"Quality x Noise", "paper/figures/quality-x-noise.png", some 2⟩ : SaveCall).format = "pdf" :=
  c1_outputs.2.2.2.2.1 _ (by decide)

/-- Claim C2: sorting the 4-row strategy dataset descending by the
expected field yields the bar order Two Very Good, Three Decent, Two
Good, One Excellent; the expected values of the rows are 0.82, 0.60,
0.57, 0.56 and the sorted expected values are descending; the bar chart
x channel carries exactly that descending sort on expected. -/
theorem c2_bar_order :
    barOrder = ["Two Very Good", "Three Decent", "Two Good", "One Excellent"] ∧
    bars.encoding.map Channel.sortByField = [some ("expected", true), none] ∧
    strategy_data.map (fun r => r.getQ "expected") = [0.82, 0.60, 0.57, 0.56] ∧
    descendingQ
      ((sortDescBy (fun r => r.getQ "expected") strategy_data).map
        (fun r => r.getQ "expected")) = true := by
  refine ⟨by decide, by decide, ?_, by decide⟩
  have h : strategy_data.map (fun r => r.getQ "expected") =
      [mkRat 82 100, mkRat 60 100, mkRat 57 100, mkRat 56 100] := by decide
  rw [h]
  norm_num [Rat.mkRat_eq_div]

/-- Claim C3: the only explicitly ordered categorical channel is the
color channel of the quality-noise figure; its ordering list Low, Medium,
High equals the distinct noise values of the data in order, so the
validation succeeds; in general the validation succeeds exactly for
duplicate-free orderings whose value set equals the distinct values of
the bound field, and it raises OrderingMismatchError both for a missing
and for an extra category. -/
theorem c3_ordering_bijection :
    quality_noise_chart.encoding.filterMap Channel.sortList =
      [["Low (SD=15)", "Medium (SD=30)", "High (SD=45)"]] ∧
    distinctVals quality_noise_data "noise" =
      ["Low (SD=15)", "Medium (SD=30)", "High (SD=45)"] ∧
    checkOrdering quality_noise_data "noise"
      ["Low (SD=15)", "Medium (SD=30)", "High (SD=45)"] = Except.ok () ∧
    (∀ ds f O, checkOrdering ds f O = Except.ok () ↔
      (noDups O = true ∧ ∀ v, v ∈ O ↔ v ∈ distinctVals ds f)) ∧
    checkOrdering quality_noise_data "noise"
      ["Low (SD=15)", "Medium (SD=30)"] = Except.error "OrderingMismatchError" ∧
    checkOrdering quality_noise_data "noise"
      ["Low (SD=15)", "Medium (SD=30)", "High (SD=45)", "Extreme (SD=60)"] =
        Except.error "OrderingMismatchError" := by
  refine ⟨by decide, by decide, by decide, checkOrdering_ok_iff, by decide, by decide⟩

/-- Claim C4: layering preserves the supplied order exactly, and the two
figures carry their three layers in the order written in the script:
line chart, threshold rule, threshold label for figure 1; bars, value
labels, info labels for figure 2. -/
theorem c4_layer_order :
    (∀ A B C : Layer, layerOp (layerOp [A] [B]) [C] = [A, B, C]) ∧
    fig1.layers = [quality_noise_chart, threshold_line, threshold_label] ∧
    fig2.layers = [bars, text_labels, info_labels] :=
  ⟨fun _ _ _ => rfl, by decide, by decide⟩

/-- Claim C5: if the exports before `c` succeed and the export of `c`
fails, the run attempts exactly the calls up to and including `c`, never
reaches the calls after `c` (of the same or the other figure), retries
nothing, and stops with the ExportError carrying the target path and the
name of the figure. -/
theorem c5_export_failure_aborts (env : String → Bool) (pre post : List SaveCall)
    (c : SaveCall) (hsplit : save_calls = pre ++ c :: post)
    (hpre : ∀ d ∈ pre, env d.path = true) (hc : env c.path = false) :
    runExports env save_calls = (pre ++ [c], Except.error ⟨c.path, c.figName⟩) := by
  rw [hsplit]
  exact runExports_append env pre c post hpre hc

/-- Witness for c5_export_failure_aborts: the second save call (the PDF
of figure 1) fails, so the two remaining figure-2 exports are never
attempted. -/
theorem c5_witness :
    runExports (fun p => p != "paper/figures/quality-x-noise.pdf") save_calls =
      ([⟨"Quality x Noise", "paper/figures/quality-x-noise.png", some 2⟩,
        ⟨"Quality x Noise", "paper/figures/quality-x-noise.pdf", none⟩],
       Except.error ⟨"paper/figures/quality-x-noise.pdf", "Quality x Noise"⟩) :=
  c5_export_failure_aborts (fun p => p != "paper/figures/quality-x-noise.pdf")
    [⟨"Quality x Noise", "paper/figures/quality-x-noise.png", some 2⟩]
    [⟨"Strategy Comparison", "paper/figures/strategy-comparison.png", some 2⟩,
     ⟨"Strategy Comparison", "paper/figures/strategy-comparison.pdf", none⟩]
    ⟨"Quality x Noise", "paper/figures/quality-x-noise.pdf", none⟩
    (by decide) (by decide) (by decide)

/-- Claim C6: each dataset of the script is schema-uniform (every record
carries the same field list), every field referenced by a channel of any
layer of either figure exists in every record of that layer's dataset,
and the schema validation succeeds on every embedded dataset, so the
SchemaMismatchError branch is unreachable on the embedded literals. -/
theorem c6_schema :
    (∀ r ∈ quality_noise_data, r.fields = ["quality", "noise", "probability", "order"]) ∧
    (∀ r ∈ strategy_data, r.fields = ["strategy", "expected", "papers", "quality"]) ∧
    (∀ r ∈ info_data,
      r.fields = ["strategy", "expected", "papers", "quality", "info", "y_pos"]) ∧
    checkSchema quality_noise_data = Except.ok () ∧
    checkSchema strategy_data = Except.ok () ∧
    checkSchema info_data = Except.ok () ∧
    (∀ L ∈ fig1.layers ++ fig2.layers, checkSchema L.data = Except.ok () ∧
      ∀ ch ∈ L.encoding, ∀ r ∈ L.data, ch.field ∈ r.fields) := by decide

/-- Witness for c6_schema at the first record of the quality-noise
dataset. -/
theorem c6_schema_witness :
    Record.fields
      [("quality", Value.i 50), ("noise", Value.s "Low (SD=15)"),
       ("probability", Value.q (mkRat 2 10)), ("order", Value.i 1)] =
      ["quality", "noise", "probability", "order"] :=
  c6_schema.1 _ (by decide)

/-- Claim C7: the info column of the info dataset is the pure formatting
function applied to each strategy record; the concrete labels are the
count, paper or papers, and the quality; the One Excellent record with
one paper yields 1 paper, Q=85 and the Three Decent record yields
3 papers, Q=68; in general the plural s is present exactly when the
papers count exceeds 1. -/
theorem c7_info_label :
    info_data.map (fun r => r.getS "info") =
      strategy_data.map (fun r => some (infoText (r.getI "papers") (r.getI "quality"))) ∧
    info_data.map (fun r => r.getS "info") =
      [some "2 papers, Q=78", some "3 papers, Q=68",
       some "2 papers, Q=72", some "1 paper, Q=85"] ∧
    infoText 1 85 = "1 paper, Q=85" ∧
    infoText 3 68 = "3 papers, Q=68" ∧
    (∀ p q : ℤ, infoText p q =
      toString p ++ (if 1 < p then " papers, Q=" else " paper, Q=") ++ toString q) :=
  ⟨by decide, by decide, by decide, by decide, infoText_split⟩

/-- Claim C8: building the info layer leaves the source datasets intact:
restricting every info record to the original four strategy fields gives
back exactly the strategy dataset, every strategy record still carries
exactly the fields strategy, expected, papers, quality, and every layer
of both figures is bound to its unmodified dataset. -/
theorem c8_no_mutation :
    info_data.map
      (fun r => r.filter
        (fun p => (["strategy", "expected", "papers", "quality"] : List String).contains p.1)) =
      strategy_data ∧
    (∀ r ∈ strategy_data, r.fields = ["strategy", "expected", "papers", "quality"]) ∧
    bars.data = strategy_data ∧
    text_labels.data = strategy_data ∧
    quality_noise_chart.data = quality_noise_data ∧
    info_labels.data = info_data ∧
    quality_noise_data.length = 15 ∧ strategy_data.length = 4 := by decide

/-- Witness for c8_no_mutation at the first strategy record. -/
theorem c8_no_mutation_witness :
    Record.fields
      [("strategy", Value.s "Two Very Good"), ("expected", Value.q (mkRat 82 100)),
       ("papers", Value.i 2), ("quality", Value.i 78)] =
      ["strategy", "expected", "papers", "quality"] :=
  c8_no_mutation.2.1 _ (by decide)

/-- Claim C9: every embedded numeric value lies inside the declared
scale domain of its channel: quality values within [45,95] and
probabilities within [0,100] (including the threshold rule at x=70 and
the threshold label at y=92), expected values within [0,1] including the
info-label position 0.08. -/
theorem c9_domains :
    quality_noise_chart.encoding.filterMap Channel.domain = [(45, 95), (0, 100)] ∧
    bars.encoding.filterMap Channel.domain = [(0, 1)] ∧
    (∀ r ∈ quality_noise_data,
      45 ≤ r.getQ "quality" ∧ r.getQ "quality" ≤ 95 ∧
      0 ≤ r.getQ "probability" ∧ r.getQ "probability" ≤ 100) ∧
    (∀ r ∈ threshold_line.data, 45 ≤ r.getQ "x" ∧ r.getQ "x" ≤ 95) ∧
    (∀ r ∈ threshold_label.data,
      45 ≤ r.getQ "x" ∧ r.getQ "x" ≤ 95 ∧ 0 ≤ r.getQ "y" ∧ r.getQ "y" ≤ 100) ∧
    (∀ r ∈ strategy_data, 0 ≤ r.getQ "expected" ∧ r.getQ "expected" ≤ 1) ∧
    (∀ r ∈ info_data, 0 ≤ r.getQ "y_pos" ∧ r.getQ "y_pos" ≤ 1) := by decide

/-- Witness for c9_domains at the threshold rule datum x=70. -/
theorem c9_domains_witness :
    45 ≤ Record.getQ [("x", Value.i 70)] "x" ∧ Record.getQ [("x", Value.i 70)] "x" ≤ 95 :=
  c9_domains.2.2.2.1 _ (by decide)

/-- Claim C10: the subtitle of the strategy figure says 46% more
expected publications, and indeed the top expected value 0.82 belongs to
Two Very Good (quality 78), the highest-quality strategy One Excellent
(quality 85) has expected value 0.56, and the relative gain
(0.82 - 0.56) / 0.56, as a percentage, rounds to 46. -/
theorem c10_subtitle_consistency :
    fig2.subtitle = "Lower quality strategy yields 46% more expected publications" ∧
    (∀ r ∈ strategy_data, r.getQ "expected" ≤ mkRat 82 100) ∧
    (∀ r ∈ strategy_data, r.getI "quality" ≤ 85) ∧
    (strategy_data.find? (fun r => r.getS "strategy" == some "Two Very Good")).map
      (fun r => (r.getQ "expected", r.getI "quality")) = some (mkRat 82 100, 78) ∧
    (strategy_data.find? (fun r => r.getS "strategy" == some "One Excellent")).map
      (fun r => (r.getQ "expected", r.getI "quality")) = some (mkRat 56 100, 85) ∧
    (mkRat 82 100 : ℚ) = 0.82 ∧ (mkRat 56 100 : ℚ) = 0.56 ∧
    round (((mkRat 82 100 : ℚ) - mkRat 56 100) / mkRat 56 100 * 100) = 46 := by
  refine ⟨rfl, by decide, by decide, by decide, by decide, ?_, ?_, ?_⟩
  · norm_num [Rat.mkRat_eq_div]
  · norm_num [Rat.mkRat_eq_div]
  · have h : ((mkRat 82 100 : ℚ) - mkRat 56 100) / mkRat 56 100 * 100 = 325 / 7 := by
      norm_num [Rat.mkRat_eq_div]
    rw [h, round_eq]
    norm_num

/-- Witness for c10_subtitle_consistency at the Two Very Good record. -/
theorem c10_witness :
    Record.getQ
      [("strategy", Value.s "Two Very Good"), ("expected", Value.q (mkRat 82 100)),
       ("papers", Value.i 2), ("quality", Value.i 78)] "expected" ≤ mkRat 82 100 :=
  c10_subtitle_consistency.2.1 _ (by decide)

end GenerateCharts
